import Mathlib

/-!
Verification of the `timemachine` Go package (endotoh/timemachine).

The package is a drop-in replacement for Go's `time` package that lets test
code freeze, advance and resume time.  Its whole state is one process-wide
record (`src/timemachine.go`, lines 38-42):

  var state struct {
      sync.Mutex
      frozen     bool
      frozenTime time.Time
  }

We embed `time.Time` and `time.Duration` as `Int` (a nanosecond-resolution
epoch offset; `time.Time.Add` is integer addition of the duration, and
`time.Time.Sub` is subtraction).  The real wall clock is an oracle: any
operation that consults `time.Now()` takes the reading as an explicit
argument `real : Int`.  Operations are explicit state transformers on
`ClockState`; `Travel`'s panic is a `TravelResult.panic` constructor that
carries the state at the moment of the panic.  The blocking behaviour of
`time.Sleep` in live mode is real time and is outside the embedding; its
(absent) state effect is what we model.

Locking (for the concurrency claim) is modelled separately as the trace of
lock/unlock/field-write events each operation performs, read off line by
line from the source, with a checker that every write happens while the
mutex is held.
-/

namespace Timemachine

/-- The process-wide state record of `src/timemachine.go` lines 38-42
(the `sync.Mutex` itself is modelled separately, as event traces). -/
structure ClockState where
  frozen : Bool
  frozenTime : Int
  deriving Repr, DecidableEq

/-- Initial state at process start: Go zero values (`frozen = false`,
`frozenTime` the zero `time.Time`). -/
def initState : ClockState := { frozen := false, frozenTime := 0 }

/-- `Now()` (`src/timemachine.go` lines 50-57): if `state.frozen`, return
`state.frozenTime`, else return `time.Now()` (the oracle `real`).  The
function only reads the state; the returned state component is the
unchanged input state. -/
def Now (s : ClockState) (real : Int) : Int × ClockState :=
  if s.frozen then
    (s.frozenTime, s)
  else
    (real, s)

/-- `Sleep(d)` (`src/timemachine.go` lines 61-68): if `state.frozen`,
set `state.frozenTime = state.frozenTime.Add(d)`; else `time.Sleep(d)`
(a real blocking delay with no state effect, which is all the embedding
sees of it). -/
def Sleep (s : ClockState) (d : Int) : ClockState :=
  if s.frozen then
    { s with frozenTime := s.frozenTime + d }
  else
    s

/-- `Since(t)` (`src/timemachine.go` lines 72-74): `Now().Sub(t)`. -/
def Since (s : ClockState) (real : Int) (t : Int) : Int × ClockState :=
  let n := Now s real
  (n.1 - t, n.2)

/-- `Until(t)` (`src/timemachine.go` lines 78-80): `t.Sub(Now())`. -/
def Until (s : ClockState) (real : Int) (t : Int) : Int × ClockState :=
  let n := Now s real
  (t - n.1, n.2)

/-- `FreezeNow()` (`src/timemachine.go` lines 87-93): under the lock, set
`state.frozen = true`, `state.frozenTime = time.Now()` (the oracle `real`),
and return `state.frozenTime`. -/
def FreezeNow (s : ClockState) (real : Int) : Int × ClockState :=
  let s1 := { s with frozen := true }
  let s2 := { s1 with frozenTime := real }
  (s2.frozenTime, s2)

/-- `Unfreeze()` (`src/timemachine.go` lines 97-101): under the lock, set
`state.frozen = false`. -/
def Unfreeze (s : ClockState) : ClockState :=
  { s with frozen := false }

/-- `IsFrozen()` (`src/timemachine.go` lines 104-106): return `state.frozen`. -/
def IsFrozen (s : ClockState) : Bool :=
  s.frozen

/-- Outcome of `Travel`: either a normal return carrying the returned
`time.Time` and the post-state, or a panic carrying the panic message and
the state at the moment the panic fires. -/
inductive TravelResult where
  | ok (ret : Int) (s : ClockState)
  | panicked (msg : String) (s : ClockState)
  deriving Repr, DecidableEq

/-- `Travel(d)` (`src/timemachine.go` lines 111-120): if `!state.frozen`,
panic with the message below (before taking the lock, before any write);
else, under the lock, `state.frozenTime = state.frozenTime.Add(d)` and
return `state.frozenTime`. -/
def Travel (s : ClockState) (d : Int) : TravelResult :=
  if !s.frozen then
    .panicked "You can only time travel after calling FreezeNow()" s
  else
    let s1 := { s with frozenTime := s.frozenTime + d }
    .ok s1.frozenTime s1

/-! ## Lock-event model

Each operation's sequence of mutex and state-field accesses, read off the
source line by line.  `go`'s `defer state.Unlock()` releases the mutex on
every exit path of the function that ran `state.Lock()`, so each locked
operation's trace ends with an `unlock`. -/

/-- A single access to the shared record or its mutex. -/
inductive Ev where
  | lock
  | unlock
  | readState
  | writeFrozen
  | writeFrozenTime
  deriving Repr, DecidableEq

/-- Trace of `Sleep(d)` (`src/timemachine.go` lines 61-68): line 62 reads
`state.frozen`; when frozen, line 64 writes `state.frozenTime`.  No
`Lock`/`Unlock` call appears anywhere in the function body. -/
def sleepTrace (frozen : Bool) : List Ev :=
  if frozen then [.readState, .writeFrozenTime] else [.readState]

/-- Trace of `FreezeNow()` (lines 87-93): `state.Lock()`, write
`state.frozen`, write `state.frozenTime`, deferred `state.Unlock()`. -/
def freezeNowTrace : List Ev :=
  [.lock, .writeFrozen, .writeFrozenTime, .unlock]

/-- Trace of `Unfreeze()` (lines 97-101): `state.Lock()`, write
`state.frozen`, deferred `state.Unlock()`. -/
def unfreezeTrace : List Ev :=
  [.lock, .writeFrozen, .unlock]

/-- Trace of `Travel(d)` (lines 111-120): line 112 reads `state.frozen`
before any locking; on the frozen branch, `state.Lock()`, write
`state.frozenTime`, deferred `state.Unlock()`; on the unfrozen branch the
panic fires with no further access. -/
def travelTrace (frozen : Bool) : List Ev :=
  if frozen then [.readState, .lock, .writeFrozenTime, .unlock] else [.readState]

/-- Trace of `Now()` (lines 50-57): reads only, no locking. -/
def nowTrace : List Ev :=
  [.readState]

/-- Step of the guardedness check: carry (all-writes-guarded-so-far,
current lock depth). -/
def guardStep (acc : Bool × Nat) (e : Ev) : Bool × Nat :=
  match e with
  | .lock => (acc.1, acc.2 + 1)
  | .unlock => (acc.1, acc.2 - 1)
  | .readState => acc
  | .writeFrozen => (acc.1 && decide (0 < acc.2), acc.2)
  | .writeFrozenTime => (acc.1 && decide (0 < acc.2), acc.2)

/-- `mutationsGuarded evs` holds when every write to a state field in the
trace occurs while the mutex is held (lock depth positive). -/
def mutationsGuarded (evs : List Ev) : Bool :=
  (evs.foldl guardStep (true, 0)).1

end Timemachine

namespace Timemachine

/-! ## Claims -/

/-- C1: For every state of the clock facade, `Now()` returns `frozenTime`
when `frozen` is true and the real current wall-clock timestamp when
`frozen` is false, and it leaves the state (frozen flag and frozenTime)
unchanged. -/
theorem now_spec (s : ClockState) (real : Int) :
    (s.frozen = true → (Now s real).1 = s.frozenTime) ∧
    (s.frozen = false → (Now s real).1 = real) ∧
    (Now s real).2 = s := by
  unfold Now
  cases h : s.frozen <;> simp [h]

/-- C2: While frozen with cached time `t0`, `Sleep(d)` sets `frozenTime` to
exactly `t0 + d` and leaves `frozen` unchanged, so a subsequent `Now()`
returns exactly `t0 + d`; while unfrozen, `Sleep` changes no state. -/
theorem sleep_spec (s : ClockState) (d : Int) :
    (s.frozen = true →
      (Sleep s d).frozenTime = s.frozenTime + d ∧
      (Sleep s d).frozen = s.frozen ∧
      ∀ real : Int, (Now (Sleep s d) real).1 = s.frozenTime + d) ∧
    (s.frozen = false → Sleep s d = s) := by
  unfold Sleep Now
  cases h : s.frozen <;> simp [h]

/-- Witness for C2 at a concrete frozen and a concrete unfrozen state. -/
theorem sleep_spec_witness :
    (Sleep { frozen := true, frozenTime := 100 } 7).frozenTime = 107 ∧
    Sleep { frozen := false, frozenTime := 100 } 7 =
      { frozen := false, frozenTime := 100 } := by
  refine ⟨?_, ?_⟩
  · have h := (sleep_spec { frozen := true, frozenTime := 100 } 7).1 rfl
    exact h.1
  · exact (sleep_spec { frozen := false, frozenTime := 100 } 7).2 rfl

/-- C3: `Travel(d)` while unfrozen panics (fatal abnormal termination, not
an error value); while frozen it advances `frozenTime` by exactly `d` and
returns the new `frozenTime` value. -/
theorem travel_spec (s : ClockState) (d : Int) :
    (s.frozen = false →
      Travel s d =
        .panicked "You can only time travel after calling FreezeNow()" s) ∧
    (s.frozen = true →
      Travel s d = .ok (s.frozenTime + d) { s with frozenTime := s.frozenTime + d }) := by
  unfold Travel
  cases h : s.frozen <;> simp [h]

/-- Witness for C3 at concrete states. -/
theorem travel_spec_witness :
    Travel { frozen := false, frozenTime := 5 } 3 =
      .panicked "You can only time travel after calling FreezeNow()"
        { frozen := false, frozenTime := 5 } ∧
    Travel { frozen := true, frozenTime := 5 } 3 =
      .ok 8 { frozen := true, frozenTime := 8 } := by
  refine ⟨(travel_spec { frozen := false, frozenTime := 5 } 3).1 rfl, ?_⟩
  exact (travel_spec { frozen := true, frozenTime := 5 } 3).2 rfl

/-- C4: For every prior state, `FreezeNow()` sets `frozen := true`, stores
the real current time into `frozenTime`, and returns that stored value; in
particular, called while already frozen it overwrites `frozenTime` with the
real current time, discarding prior Sleep/Travel advancement. -/
theorem freezeNow_spec (s : ClockState) (real : Int) :
    (FreezeNow s real).2.frozen = true ∧
    (FreezeNow s real).2.frozenTime = real ∧
    (FreezeNow s real).1 = real := by
  unfold FreezeNow
  simp

/-- C5: `Unfreeze()` sets `frozen` to false and leaves `frozenTime`
unchanged (the stale cached timestamp is retained). -/
theorem unfreeze_spec (s : ClockState) :
    (Unfreeze s).frozen = false ∧ (Unfreeze s).frozenTime = s.frozenTime := by
  unfold Unfreeze
  simp

/-- C6: For every timestamp `t` and every state, `Since(t)` returns exactly
`Now() - t` and `Until(t)` returns exactly `t - Now()`, and neither
operation mutates the state. -/
theorem since_until_spec (s : ClockState) (real : Int) (t : Int) :
    (Since s real t).1 = (Now s real).1 - t ∧
    (Until s real t).1 = t - (Now s real).1 ∧
    (Since s real t).2 = s ∧
    (Until s real t).2 = s := by
  unfold Since Until Now
  cases h : s.frozen <;> simp [h]

/-- C8: While frozen, `Travel(d)` has exactly the same effect on the state
as `Sleep(d)` and its return value equals what `Now()` returns immediately
after `Sleep(d)`. -/
theorem travel_sleep_equiv (s : ClockState) (d : Int) (h : s.frozen = true) :
    Travel s d = .ok (Now (Sleep s d) ((Sleep s d).frozenTime)).1 (Sleep s d) := by
  unfold Travel Sleep Now
  simp [h]

/-- Witness for C8 at a concrete frozen state. -/
theorem travel_sleep_equiv_witness :
    Travel { frozen := true, frozenTime := 40 } 2 =
      .ok (Now (Sleep { frozen := true, frozenTime := 40 } 2)
            ((Sleep { frozen := true, frozenTime := 40 } 2).frozenTime)).1
        (Sleep { frozen := true, frozenTime := 40 } 2) :=
  travel_sleep_equiv { frozen := true, frozenTime := 40 } 2 rfl

/-- C9: While frozen, `Now()` is independent of the real-clock input and
leaves the state unchanged, so after `FreezeNow()` with no intervening
mutation, two `Now()` calls return equal timestamps regardless of real
elapsed time (two-run noninterference). -/
theorem frozen_now_noninterference (s : ClockState) (real1 real2 : Int)
    (h : s.frozen = true) :
    (Now s real1).1 = (Now s real2).1 ∧
    (Now ((Now s real1).2) real2).1 = (Now s real1).1 ∧
    ∀ realF real3 real4 : Int,
      (Now (FreezeNow s realF).2 real3).1 = (Now (FreezeNow s realF).2 real4).1 := by
  unfold Now FreezeNow
  simp [h]

/-- Witness for C9 at a concrete frozen state and distinct real-clock
readings. -/
theorem frozen_now_noninterference_witness :
    (Now { frozen := true, frozenTime := 11 } 1000).1 =
      (Now { frozen := true, frozenTime := 11 } 2000).1 :=
  (frozen_now_noninterference { frozen := true, frozenTime := 11 } 1000 2000 rfl).1

/-- C10: When `Travel(d)` is called while unfrozen, the panic fires before
any mutation: the state carried by the panic outcome is exactly the
pre-call state (both `frozen` and `frozenTime` unchanged). -/
theorem travel_panic_atomic (s : ClockState) (d : Int) (h : s.frozen = false) :
    ∃ msg, Travel s d = .panicked msg s := by
  unfold Travel
  simp [h]

/-- Witness for C10 at a concrete unfrozen state. -/
theorem travel_panic_atomic_witness :
    ∃ msg, Travel { frozen := false, frozenTime := 99 } 4 =
      .panicked msg { frozen := false, frozenTime := 99 } :=
  travel_panic_atomic { frozen := false, frozenTime := 99 } 4 rfl

/-- C7 (code bug): the claim says every mutation of the shared record is
performed while holding the mutex, but `Sleep`'s write of
`state.frozenTime` (line 64) happens with no `Lock`/`Unlock` anywhere in
`Sleep`'s body: its frozen-mode trace fails the guardedness check, while
`FreezeNow`, `Unfreeze` and frozen-mode `Travel` all pass it. -/
theorem sleep_write_unguarded :
    mutationsGuarded (sleepTrace true) = false ∧
    mutationsGuarded freezeNowTrace = true ∧
    mutationsGuarded unfreezeTrace = true ∧
    mutationsGuarded (travelTrace true) = true := by
  decide

end Timemachine
